import Mathlib

/-!
Verification of the snake-game simulation core (`src/01-snake/main.go`).

The game state is a snake (list of grid positions, head first), a food
position, a direction vector, an 8-bit timing accumulator (`color`),
a score and a phase (`state`).  Each real-time frame runs
`Game.Update`: keyboard input overwrites the direction, then, when the
accumulator would wrap past 255, one logical tick runs (dispatch on the
phase), and finally the accumulator advances by `speed` modulo 256.

Machine integers are embedded as `Int` (Go `int`) and `Nat` with
explicit `% 256` (Go `uint8`); `rand.IntN` results are modelled by a
pair of naturals reduced modulo the board dimensions, so every cell the
real generator can produce is reachable.
-/

namespace Snake

/-- Grid constants from the Go source: `screenWidth`, `screenHeight`,
`boxSize`, `boardWidth = screenWidth / boxSize`,
`boardHeight = screenHeight / boxSize`, `speed = math.MaxUint8 / 10`. -/
def screenWidth : Nat := 320

def screenHeight : Nat := 240

def boxSize : Nat := 8

def boardWidth : Nat := screenWidth / boxSize

def boardHeight : Nat := screenHeight / boxSize

def speed : Nat := 255 / 10

/-- The Go `type Point struct { x int; y int }`. -/
structure Point where
  x : Int
  y : Int
deriving DecidableEq, Repr

/-- The phase constants `RUNNING`, `CRASHED`, `CRASHING`. -/
inductive GState where
  | RUNNING
  | CRASHED
  | CRASHING
deriving DecidableEq, Repr

/-- The simulation fields of `type Game struct` (the `offscreen` image is
render-only and omitted).  `snake` is head first, as in the Go slice.
`color` is the `uint8` timing accumulator, kept in `[0, 256)` by the
update. -/
structure Game where
  snake : List Point
  food : Point
  direction : Point
  color : Nat
  score : Int
  state : GState
deriving DecidableEq, Repr

/-- Model of `Game.setFood`: `g.food.x = rand.IntN(boardWidth); g.food.y =
rand.IntN(boardHeight)`.  The two random draws are modelled by the pair
`r`, reduced modulo the board dimensions so the possible results are
exactly the cells `[0, boardWidth) × [0, boardHeight)`. -/
def setFood (r : Nat × Nat) : Point :=
  ⟨(r.1 % boardWidth : Nat), (r.2 % boardHeight : Nat)⟩

/-- Model of `Game.detectCollision`: scan the snake from index 1 (skipping the
head) and report whether any segment sits at `h`. -/
def detectCollision (snake : List Point) (h : Point) : Bool :=
  (snake.drop 1).any (fun p => p.x == h.x && p.y == h.y)

/-- The `RUNNING` arm of the tick.  The Go loop walks the snake
backward, assigning each non-head segment its predecessor's (not yet
overwritten) position; the net effect on the list is
`newHead :: snake.dropLast`.  The head is moved by the direction
vector; if it lands on the food, the food is re-placed, a new tail
segment holding the pre-tick tail position (`tail` is captured before
the loop) is appended, and the score is incremented.  Finally
`detectCollision(g.snake[0])` may set the phase to `CRASHED`.
An empty snake (on which the Go code would panic when reading
`g.snake[len(g.snake)-1]`) is left unchanged; it is unreachable by the
length invariant. -/
def runningTick (g : Game) (r : Nat × Nat) : Game :=
  match g.snake with
  | [] => g
  | h :: t =>
    let tl := (h :: t).getLast (List.cons_ne_nil h t)
    let nh : Point := ⟨h.x + g.direction.x, h.y + g.direction.y⟩
    let moved := nh :: (h :: t).dropLast
    if nh = g.food then
      let snake2 := moved ++ [tl]
      { g with snake := snake2, food := setFood r, score := g.score + 1,
               state := if detectCollision snake2 nh then .CRASHED else .RUNNING }
    else
      { g with snake := moved,
               state := if detectCollision moved nh then .CRASHED else .RUNNING }

/-- One logical tick: the `switch g.state` body of `Game.Update`,
run only on frames where the accumulator wraps. -/
def tickStep (g : Game) (r : Nat × Nat) : Game :=
  if g.state = .RUNNING then
    runningTick g r
  else if g.state = .CRASHED then
    { g with score := 0, state := .CRASHING }
  else if g.snake.length > 1 then
    { g with snake := g.snake.dropLast }
  else
    { g with state := .RUNNING }

/-- The keyboard sample of one frame: at most one arrow key, as in the
`switch`/`case ebiten.IsKeyPressed` chain of `Game.handleKeyboard`. -/
inductive Key where
  | up
  | right
  | down
  | left
deriving DecidableEq, Repr

/-- Model of `Game.handleKeyboard`: an active arrow key overwrites the direction
with the corresponding unit vector; no key leaves it unchanged. -/
def handleKeyboard (d : Point) (k : Option Key) : Point :=
  match k with
  | some .up => ⟨0, -1⟩
  | some .right => ⟨1, 0⟩
  | some .down => ⟨0, 1⟩
  | some .left => ⟨-1, 0⟩
  | none => d

/-- Model of `Game.Update`, one real-time frame: apply the keyboard to the
direction, run one logical tick when `uint16(g.color) + speed >=
math.MaxUint8` (the accumulator stays below 256, so the 16-bit sum is
the exact sum), and finally `g.color += speed` in `uint8`, i.e. modulo
256. -/
def update (g : Game) (k : Option Key) (r : Nat × Nat) : Game :=
  let g1 := { g with direction := handleKeyboard g.direction k }
  let g2 := if 255 ≤ g1.color + speed then tickStep g1 r else g1
  { g2 with color := (g2.color + speed) % 256 }

/-- Model of `NewGame`: one-segment snake at `{boardHeight / 2, boardWidth / 2}`
(so `x = boardHeight/2`, `y = boardWidth/2`, as written in the source),
direction `{1, 0}`, then `setFood` draws the initial food. -/
def NewGame (r : Nat × Nat) : Game :=
  { snake := [⟨(boardHeight / 2 : Nat), (boardWidth / 2 : Nat)⟩],
    food := setFood r,
    direction := ⟨1, 0⟩,
    color := 0,
    score := 0,
    state := .RUNNING }

/-- A sequence of logical ticks, one random pair per tick. -/
def iterTick (rs : List (Nat × Nat)) (g : Game) : Game :=
  rs.foldl (fun g r => tickStep g r) g

/-- The simulation-visible part of the state: everything except the
timing accumulator and the direction (which the keyboard may rewrite
on any frame). -/
def simParts (g : Game) : List Point × Point × Int × GState :=
  (g.snake, g.food, g.score, g.state)

/-! ### Unfolding lemmas -/

theorem iterTick_nil (g : Game) : iterTick [] g = g := rfl

theorem iterTick_cons (r : Nat × Nat) (rs : List (Nat × Nat)) (g : Game) :
    iterTick (r :: rs) g = iterTick rs (tickStep g r) := rfl

theorem tickStep_running (g : Game) (r : Nat × Nat) (hst : g.state = .RUNNING) :
    tickStep g r = runningTick g r := by
  unfold tickStep
  rw [if_pos hst]

theorem tickStep_crashed (g : Game) (r : Nat × Nat) (hst : g.state = .CRASHED) :
    tickStep g r = { g with score := 0, state := .CRASHING } := by
  unfold tickStep
  rw [if_neg (by rw [hst]; intro hc; cases hc), if_pos hst]

theorem tickStep_crashing_shrink (g : Game) (r : Nat × Nat)
    (hst : g.state = .CRASHING) (hl : 1 < g.snake.length) :
    tickStep g r = { g with snake := g.snake.dropLast } := by
  unfold tickStep
  rw [if_neg (by rw [hst]; intro hc; cases hc),
    if_neg (by rw [hst]; intro hc; cases hc), if_pos hl]

theorem tickStep_crashing_done (g : Game) (r : Nat × Nat)
    (hst : g.state = .CRASHING) (hl : ¬ 1 < g.snake.length) :
    tickStep g r = { g with state := .RUNNING } := by
  unfold tickStep
  rw [if_neg (by rw [hst]; intro hc; cases hc),
    if_neg (by rw [hst]; intro hc; cases hc), if_neg hl]

theorem runningTick_eat (g : Game) (r : Nat × Nat) (h : Point) (t : List Point)
    (hs : g.snake = h :: t)
    (hf : (⟨h.x + g.direction.x, h.y + g.direction.y⟩ : Point) = g.food) :
    runningTick g r =
      { g with
        snake := ⟨h.x + g.direction.x, h.y + g.direction.y⟩ :: h :: t,
        food := setFood r,
        score := g.score + 1,
        state :=
          if detectCollision (⟨h.x + g.direction.x, h.y + g.direction.y⟩ :: h :: t)
              ⟨h.x + g.direction.x, h.y + g.direction.y⟩
          then .CRASHED else .RUNNING } := by
  rcases g with ⟨sn, fd, dir, col, sc, st⟩
  simp only at hs
  subst hs
  simp only at hf
  simp only [runningTick, hf, if_pos]
  rw [List.cons_append, List.dropLast_append_getLast (List.cons_ne_nil h t)]

theorem runningTick_noeat (g : Game) (r : Nat × Nat) (h : Point) (t : List Point)
    (hs : g.snake = h :: t)
    (hf : ¬ (⟨h.x + g.direction.x, h.y + g.direction.y⟩ : Point) = g.food) :
    runningTick g r =
      { g with
        snake := ⟨h.x + g.direction.x, h.y + g.direction.y⟩ :: (h :: t).dropLast,
        state :=
          if detectCollision (⟨h.x + g.direction.x, h.y + g.direction.y⟩ :: (h :: t).dropLast)
              ⟨h.x + g.direction.x, h.y + g.direction.y⟩
          then .CRASHED else .RUNNING } := by
  rcases g with ⟨sn, fd, dir, col, sc, st⟩
  simp only at hs
  subst hs
  simp only at hf
  simp only [runningTick, hf, if_neg, if_false]

/-! ### Structural facts about single steps -/

/-- Fact: `detectCollision` holds exactly when some segment at index `i ≥ 1`
sits at `hd`. -/
theorem detectCollision_iff (s : List Point) (hd : Point) :
    detectCollision s hd = true ↔
      ∃ i : Nat, 1 ≤ i ∧ i < s.length ∧ s[i]? = some hd := by
  unfold detectCollision
  rw [List.any_eq_true]
  constructor
  · rintro ⟨p, hp, hpe⟩
    have hphd : p = hd := by
      rcases p with ⟨px, py⟩
      rcases hd with ⟨hx, hy⟩
      simp only [Bool.and_eq_true, beq_iff_eq] at hpe
      simp [hpe.1, hpe.2]
    subst hphd
    obtain ⟨j, hj⟩ := List.mem_iff_getElem?.mp hp
    rw [List.getElem?_drop] at hj
    refine ⟨1 + j, by omega, ?_, hj⟩
    have := List.getElem?_eq_some.mp hj
    exact this.1
  · rintro ⟨i, h1, hlt, hi⟩
    refine ⟨hd, ?_, ?_⟩
    · apply List.mem_iff_getElem?.mpr
      refine ⟨i - 1, ?_⟩
      rw [List.getElem?_drop]
      have : 1 + (i - 1) = i := by omega
      rw [this]
      exact hi
    · simp

/-- The tick never touches the timing accumulator; `g.color += speed`
happens outside the `switch`. -/
theorem tickStep_color (g : Game) (r : Nat × Nat) :
    (tickStep g r).color = g.color := by
  rcases g with ⟨sn, fd, dir, col, sc, st⟩
  cases st <;> cases sn <;>
    simp only [tickStep, runningTick, reduceCtorEq, if_true, if_false,
      reduceIte] <;>
    repeat' split <;> rfl

/-- The tick never touches the direction; only `handleKeyboard` does. -/
theorem tickStep_direction (g : Game) (r : Nat × Nat) :
    (tickStep g r).direction = g.direction := by
  rcases g with ⟨sn, fd, dir, col, sc, st⟩
  cases st <;> cases sn <;>
    simp only [tickStep, runningTick, reduceCtorEq, if_true, if_false,
      reduceIte] <;>
    repeat' split <;> rfl

/-- A tick keeps the snake nonempty. -/
theorem tickStep_length_pos (g : Game) (r : Nat × Nat)
    (hg : 1 ≤ g.snake.length) : 1 ≤ (tickStep g r).snake.length := by
  rcases hst : g.state with _ | _ | _
  · rcases hs : g.snake with _ | ⟨h, t⟩
    · rw [hs] at hg; simp at hg
    · rw [tickStep_running g r hst]
      by_cases hf : (⟨h.x + g.direction.x, h.y + g.direction.y⟩ : Point) = g.food
      · rw [runningTick_eat g r h t hs hf]
        simp
      · rw [runningTick_noeat g r h t hs hf]
        simp
  · rw [tickStep_crashed g r hst]
    exact hg
  · by_cases hl : 1 < g.snake.length
    · rw [tickStep_crashing_shrink g r hst hl]
      simp only [List.length_dropLast]
      omega
    · rw [tickStep_crashing_done g r hst hl]
      exact hg

/-- Retraction: from a `CRASHING` state with `n ≥ 1` segments, `n`
further ticks shrink the snake to one segment and return to
`RUNNING`, leaving the score untouched. -/
theorem crashing_cycle :
    ∀ (n : Nat) (rs : List (Nat × Nat)) (g : Game),
      g.state = .CRASHING → g.snake.length = n → 1 ≤ n → rs.length = n →
      (iterTick rs g).state = .RUNNING ∧
        (iterTick rs g).snake.length = 1 ∧
        (iterTick rs g).score = g.score := by
  intro n
  induction n with
  | zero => intro rs g _ _ hn; omega
  | succ m ih =>
    intro rs g hst hlen _ hrs
    rcases rs with _ | ⟨r, rs'⟩
    · simp at hrs
    · rw [iterTick_cons]
      rcases Nat.eq_zero_or_pos m with hm | hm
      · subst hm
        have hl : ¬ 1 < g.snake.length := by omega
        rw [tickStep_crashing_done g r hst hl]
        have hrs' : rs' = [] := by
          simp only [List.length_cons] at hrs
          exact List.length_eq_zero.mp (by omega)
        subst hrs'
        rw [iterTick_nil]
        refine ⟨rfl, ?_, rfl⟩
        show g.snake.length = 1
        omega
      · have hl : 1 < g.snake.length := by omega
        rw [tickStep_crashing_shrink g r hst hl]
        have := ih rs' { g with snake := g.snake.dropLast } hst
          (by simp only [List.length_dropLast]; omega) hm
          (by simp only [List.length_cons] at hrs; omega)
        exact this

theorem runningTick_nil (g : Game) (r : Nat × Nat) (hs : g.snake = []) :
    runningTick g r = g := by
  rcases g with ⟨sn, fd, dir, col, sc, st⟩
  simp only at hs
  subst hs
  rfl

/-! ### Claims -/

/-- C2: on a Running tick whose moved head lands on the food, the
snake length grows by exactly one and the score grows by exactly one. -/
theorem C2_growth (g : Game) (r : Nat × Nat) (h : Point) (t : List Point)
    (hst : g.state = .RUNNING) (hs : g.snake = h :: t)
    (hf : (⟨h.x + g.direction.x, h.y + g.direction.y⟩ : Point) = g.food) :
    (tickStep g r).snake.length = g.snake.length + 1 ∧
      (tickStep g r).score = g.score + 1 := by
  rw [tickStep_running g r hst, runningTick_eat g r h t hs hf]
  dsimp only
  rw [hs]
  exact ⟨rfl, rfl⟩

/-- A concrete Running state about to eat: snake `[(2,2)]`, direction
right, food `(3,2)` (the spec's own scenario). -/
def eatGame : Game :=
  { snake := [⟨2, 2⟩], food := ⟨3, 2⟩, direction := ⟨1, 0⟩,
    color := 0, score := 0, state := .RUNNING }

/-- Witness for C2 at the spec's concrete scenario. -/
theorem C2_growth_witness :
    (tickStep eatGame (7, 9)).snake.length = eatGame.snake.length + 1 ∧
      (tickStep eatGame (7, 9)).score = eatGame.score + 1 :=
  C2_growth eatGame (7, 9) ⟨2, 2⟩ [] rfl rfl (by decide)

/-- C3: on a Running tick the head moves by the direction vector and
every other segment (the appended growth segment included) takes the
pre-tick position of its predecessor. -/
theorem C3_chain_follow (g : Game) (r : Nat × Nat) (h : Point) (t : List Point)
    (hst : g.state = .RUNNING) (hs : g.snake = h :: t) :
    (tickStep g r).snake[0]? = some ⟨h.x + g.direction.x, h.y + g.direction.y⟩ ∧
      ∀ j : Nat, j + 1 < (tickStep g r).snake.length →
        (tickStep g r).snake[j + 1]? = g.snake[j]? := by
  rw [tickStep_running g r hst]
  by_cases hf : (⟨h.x + g.direction.x, h.y + g.direction.y⟩ : Point) = g.food
  · rw [runningTick_eat g r h t hs hf]
    dsimp only
    refine ⟨rfl, ?_⟩
    intro j hj
    rw [hs, List.getElem?_cons_succ]
  · rw [runningTick_noeat g r h t hs hf]
    dsimp only
    refine ⟨by simp, ?_⟩
    intro j hj
    rw [hs, List.getElem?_cons_succ, List.dropLast_eq_take,
      List.getElem?_take_of_lt]
    simp only [List.length_cons, List.length_dropLast] at hj ⊢
    omega

/-- Witness for C3: a three-segment snake turning left. -/
def chainGame : Game :=
  { snake := [⟨1, 1⟩, ⟨2, 1⟩, ⟨2, 1⟩], food := ⟨9, 9⟩, direction := ⟨-1, 0⟩,
    color := 0, score := 0, state := .RUNNING }

/-- Witness for C3 at the spec's degenerate-overlap scenario. -/
theorem C3_chain_follow_witness :
    (tickStep chainGame (0, 0)).snake[0]? = some ⟨0, 1⟩ ∧
      ∀ j : Nat, j + 1 < (tickStep chainGame (0, 0)).snake.length →
        (tickStep chainGame (0, 0)).snake[j + 1]? = chainGame.snake[j]? := by
  have := C3_chain_follow chainGame (0, 0) ⟨1, 1⟩ [⟨2, 1⟩, ⟨2, 1⟩] rfl rfl
  exact this

/-- C8: a tick taken in the Crashed phase only zeroes the score and
moves the phase to Crashing; snake, food, direction and accumulator are
untouched (record equality). -/
theorem C8_crashed_tick (g : Game) (r : Nat × Nat) (hst : g.state = .CRASHED) :
    tickStep g r = { g with score := 0, state := .CRASHING } :=
  tickStep_crashed g r hst

/-- A concrete Crashed state with two segments. -/
def crashedGame : Game :=
  { snake := [⟨3, 2⟩, ⟨2, 2⟩], food := ⟨9, 9⟩, direction := ⟨1, 0⟩,
    color := 0, score := 7, state := .CRASHED }

/-- Witness for C8. -/
theorem C8_crashed_tick_witness :
    tickStep crashedGame (4, 5) = { crashedGame with score := 0, state := .CRASHING } :=
  C8_crashed_tick crashedGame (4, 5) rfl

/-- A Crashed state with a one-segment snake (`N = 1`). -/
def crashedOne : Game :=
  { snake := [⟨0, 0⟩], food := ⟨1, 1⟩, direction := ⟨1, 0⟩,
    color := 0, score := 5, state := .CRASHED }

/-- C1 counterexample: from a Crashed state with snake length
`N = 1`, one tick does not reach `Running` — it only reaches
`Crashing` (the phase change to `Running` needs one further tick), so
the claimed `N`-tick reset fails. -/
theorem C1_counterexample :
    ¬ ((iterTick [(0, 0)] crashedOne).state = GState.RUNNING ∧
        (iterTick [(0, 0)] crashedOne).snake.length = 1 ∧
        (iterTick [(0, 0)] crashedOne).score = 0) := by
  decide

/-- C1 amended: from any Crashed state with snake length `N ≥ 1`,
exactly `N + 1` ticks (one Crashed tick, then `N` Crashing ticks)
return the phase to Running with snake length 1 and score 0. -/
theorem C1_crash_cycle (g : Game) (rs : List (Nat × Nat)) (N : Nat)
    (hst : g.state = .CRASHED) (hlen : g.snake.length = N) (hN : 1 ≤ N)
    (hrs : rs.length = N + 1) :
    (iterTick rs g).state = .RUNNING ∧
      (iterTick rs g).snake.length = 1 ∧
      (iterTick rs g).score = 0 := by
  rcases rs with _ | ⟨r, rs'⟩
  · simp at hrs
  · rw [iterTick_cons, tickStep_crashed g r hst]
    have hrs' : rs'.length = N := by
      simp only [List.length_cons] at hrs
      omega
    exact crashing_cycle N rs' { g with score := 0, state := .CRASHING }
      rfl hlen hN hrs'

/-- Witness for the amended C1: `N = 1` resets after two ticks. -/
theorem C1_crash_cycle_witness :
    (iterTick [(0, 0), (0, 0)] crashedOne).state = .RUNNING ∧
      (iterTick [(0, 0), (0, 0)] crashedOne).snake.length = 1 ∧
      (iterTick [(0, 0), (0, 0)] crashedOne).score = 0 :=
  C1_crash_cycle crashedOne [(0, 0), (0, 0)] 1 rfl rfl (by decide) rfl

/-- A Running state one step left of its food. -/
def foodGame : Game :=
  { snake := [⟨2, 2⟩], food := ⟨3, 2⟩, direction := ⟨1, 0⟩,
    color := 0, score := 0, state := .RUNNING }

/-- C5 counterexample: `setFood` draws over the whole board with no
exclusion, so the random stream `(3, 2)` re-places the food exactly on
the head's end-of-tick position during a consumption tick (the score
increment shows the tick consumed the food). -/
theorem C5_counterexample :
    (tickStep foodGame (3, 2)).score = foodGame.score + 1 ∧
      (tickStep foodGame (3, 2)).snake[0]? = some ⟨3, 2⟩ ∧
      (tickStep foodGame (3, 2)).food = ⟨3, 2⟩ := by
  decide

/-- C5 amended: the food placed on a consumption tick is just the
two random draws reduced modulo the board dimensions — nothing excludes
the head's (or any snake) cell, so overlap with the head is possible. -/
theorem C5_food_unrestricted (g : Game) (r : Nat × Nat) (h : Point) (t : List Point)
    (hst : g.state = .RUNNING) (hs : g.snake = h :: t)
    (hf : (⟨h.x + g.direction.x, h.y + g.direction.y⟩ : Point) = g.food) :
    (tickStep g r).food = ⟨(r.1 % boardWidth : Nat), (r.2 % boardHeight : Nat)⟩ := by
  rw [tickStep_running g r hst, runningTick_eat g r h t hs hf]
  rfl

/-- Witness for the amended C5. -/
theorem C5_food_unrestricted_witness :
    (tickStep foodGame (3, 2)).food = ⟨(3 % boardWidth : Nat), (2 % boardHeight : Nat)⟩ :=
  C5_food_unrestricted foodGame (3, 2) ⟨2, 2⟩ [] rfl rfl (by decide)

/-- A Running state on a render-only frame (`color = 0`, so
`0 + speed = 25 < 255`). -/
def idleGame : Game :=
  { snake := [⟨2, 2⟩], food := ⟨9, 9⟩, direction := ⟨1, 0⟩,
    color := 0, score := 0, state := .RUNNING }

/-- C6 counterexample: on a frame that does not reach the wrap
threshold, a pressed arrow key still rewrites the direction —
`handleKeyboard` runs on every real-time frame, not only at
logical-frame boundaries. -/
theorem C6_counterexample :
    idleGame.color + speed < 255 ∧
      (update idleGame (some Key.left) (0, 0)).direction ≠ idleGame.direction := by
  decide

/-- C6 amended: a frame below the wrap threshold leaves snake,
food, score and phase unchanged and only advances the accumulator
modulo 256 — but the direction is overwritten by the active key on
every frame, not only at logical-frame boundaries. -/
theorem C6_render_only (g : Game) (k : Option Key) (r : Nat × Nat)
    (hc : g.color + speed < 255) :
    update g k r =
      { g with direction := handleKeyboard g.direction k,
               color := (g.color + speed) % 256 } := by
  simp only [update]
  rw [if_neg (by omega)]

/-- Witness for the amended C6. -/
theorem C6_render_only_witness :
    update idleGame (some Key.left) (0, 0) =
      { idleGame with direction := handleKeyboard idleGame.direction (some Key.left),
                      color := (idleGame.color + speed) % 256 } :=
  C6_render_only idleGame (some Key.left) (0, 0) (by decide)

/-- C7: every frame advances the 8-bit accumulator to
`(before + speed) % 256`, and the tick (the phase-dispatched change of
the simulation-visible state) fires exactly when the untruncated sum
`before + speed` reaches 255. -/
theorem C7_accumulator (g : Game) (k : Option Key) (r : Nat × Nat) :
    (update g k r).color = (g.color + speed) % 256 ∧
      simParts (update g k r) =
        (if 255 ≤ g.color + speed
         then simParts (tickStep { g with direction := handleKeyboard g.direction k } r)
         else simParts g) := by
  simp only [update]
  by_cases hc : 255 ≤ g.color + speed
  · rw [if_pos hc, if_pos hc]
    refine ⟨?_, rfl⟩
    dsimp only
    rw [tickStep_color]
  · rw [if_neg hc, if_neg hc]
    exact ⟨rfl, rfl⟩

/-- Witness for C7 on a wrapping frame (`color = 240`). -/
theorem C7_accumulator_witness :
    (update { idleGame with color := 240 } none (1, 1)).color =
        ({ idleGame with color := 240 }.color + speed) % 256 ∧
      simParts (update { idleGame with color := 240 } none (1, 1)) =
        (if 255 ≤ { idleGame with color := 240 }.color + speed
         then simParts (tickStep { { idleGame with color := 240 } with
                direction := handleKeyboard { idleGame with color := 240 }.direction none } (1, 1))
         else simParts { idleGame with color := 240 }) :=
  C7_accumulator { idleGame with color := 240 } none (1, 1)

/-- Fact: `detectCollision` on a snake whose head is `nh`, phrased as the
head-equals-some-non-head-segment property. -/
theorem detectCollision_head_iff (nh : Point) (rest : List Point) :
    detectCollision (nh :: rest) nh = true ↔
      ∃ i : Nat, 1 ≤ i ∧ i < (nh :: rest).length ∧
        (nh :: rest)[i]? = (nh :: rest)[0]? := by
  rw [detectCollision_iff]
  constructor
  · rintro ⟨i, h1, hlt, hi⟩
    refine ⟨i, h1, hlt, ?_⟩
    rw [hi]
    simp
  · rintro ⟨i, h1, hlt, hi⟩
    refine ⟨i, h1, hlt, ?_⟩
    rw [hi]
    simp

/-- C4: a tick ends in the Crashed phase exactly when it was a
Running tick whose post-movement head coincides with some non-head
segment; Crashed and Crashing ticks never produce Crashed. -/
theorem C4_collision_iff (g : Game) (r : Nat × Nat) :
    (tickStep g r).state = .CRASHED ↔
      g.state = .RUNNING ∧
        ∃ i : Nat, 1 ≤ i ∧ i < (tickStep g r).snake.length ∧
          (tickStep g r).snake[i]? = (tickStep g r).snake[0]? := by
  rcases hst : g.state with _ | _ | _
  · rcases hs : g.snake with _ | ⟨h, t⟩
    · rw [tickStep_running g r hst, runningTick_nil g r hs, hst, hs]
      simp
    · by_cases hf : (⟨h.x + g.direction.x, h.y + g.direction.y⟩ : Point) = g.food
      · rw [tickStep_running g r hst, runningTick_eat g r h t hs hf]
        dsimp only
        by_cases hcol :
            detectCollision (⟨h.x + g.direction.x, h.y + g.direction.y⟩ :: h :: t)
              ⟨h.x + g.direction.x, h.y + g.direction.y⟩ = true
        · rw [if_pos hcol]
          simp only [eq_self_iff_true, true_iff, true_and]
          exact (detectCollision_head_iff _ _).mp hcol
        · rw [if_neg hcol]
          constructor
          · intro hcr
            exact absurd hcr (by decide)
          · rintro ⟨-, hex⟩
            exact absurd ((detectCollision_head_iff _ _).mpr hex) hcol
      · rw [tickStep_running g r hst, runningTick_noeat g r h t hs hf]
        dsimp only
        by_cases hcol :
            detectCollision
              (⟨h.x + g.direction.x, h.y + g.direction.y⟩ :: (h :: t).dropLast)
              ⟨h.x + g.direction.x, h.y + g.direction.y⟩ = true
        · rw [if_pos hcol]
          simp only [eq_self_iff_true, true_iff, true_and]
          exact (detectCollision_head_iff _ _).mp hcol
        · rw [if_neg hcol]
          constructor
          · intro hcr
            exact absurd hcr (by decide)
          · rintro ⟨-, hex⟩
            exact absurd ((detectCollision_head_iff _ _).mpr hex) hcol
  · rw [tickStep_crashed g r hst]
    dsimp only
    simp
  · by_cases hl : 1 < g.snake.length
    · rw [tickStep_crashing_shrink g r hst hl]
      dsimp only
      simp [hst]
    · rw [tickStep_crashing_done g r hst hl]
      dsimp only
      simp

/-- A Running state about to crash into its own body: snake
`[(2,2),(3,2),(3,3),(2,3),(2,2)]` heading right would be fine, so use a
head that steps onto the segment behind the neck. -/
def loopGame : Game :=
  { snake := [⟨2, 2⟩, ⟨2, 3⟩, ⟨3, 3⟩, ⟨3, 2⟩, ⟨2, 2⟩], food := ⟨9, 9⟩,
    direction := ⟨1, 0⟩, color := 0, score := 0, state := .RUNNING }

/-- Witness for C4: the loop state crashes and the iff certifies it. -/
theorem C4_collision_iff_witness :
    (tickStep loopGame (0, 0)).state = .CRASHED ↔
      loopGame.state = .RUNNING ∧
        ∃ i : Nat, 1 ≤ i ∧ i < (tickStep loopGame (0, 0)).snake.length ∧
          (tickStep loopGame (0, 0)).snake[i]? = (tickStep loopGame (0, 0)).snake[0]? :=
  C4_collision_iff loopGame (0, 0)

/-- C9: the snake is nonempty in the initial state and stays
nonempty across every frame update, whatever the phase, key and random
draw. -/
theorem C9_length_invariant :
    (∀ r : Nat × Nat, 1 ≤ (NewGame r).snake.length) ∧
      ∀ (g : Game) (k : Option Key) (r : Nat × Nat),
        1 ≤ g.snake.length → 1 ≤ (update g k r).snake.length := by
  constructor
  · intro r
    simp [NewGame]
  · intro g k r hg
    simp only [update]
    by_cases hc : 255 ≤ g.color + speed
    · rw [if_pos hc]
      exact tickStep_length_pos _ r hg
    · rw [if_neg hc]
      exact hg

/-- A generic Running state for closed instantiations. -/
def aliveGame : Game :=
  { snake := [⟨5, 5⟩], food := ⟨9, 9⟩, direction := ⟨1, 0⟩,
    color := 0, score := 0, state := .RUNNING }

/-- Witness for C9. -/
theorem C9_length_invariant_witness :
    1 ≤ (NewGame (0, 0)).snake.length ∧
      1 ≤ (update aliveGame none (0, 0)).snake.length :=
  ⟨C9_length_invariant.1 (0, 0), C9_length_invariant.2 aliveGame none (0, 0) (by decide)⟩

/-- C10: a Running tick from a one-segment snake with a unit
direction can never crash: collision only scans indices `≥ 1`, and the
only segment growth can append is the head's pre-tick cell, which the
moved head cannot occupy. -/
theorem C10_single_segment_safe (g : Game) (r : Nat × Nat) (h : Point)
    (hst : g.state = .RUNNING) (hs : g.snake = [h])
    (hd : g.direction = ⟨0, -1⟩ ∨ g.direction = ⟨1, 0⟩ ∨
          g.direction = ⟨0, 1⟩ ∨ g.direction = ⟨-1, 0⟩) :
    (tickStep g r).state = .RUNNING := by
  rw [tickStep_running g r hst]
  by_cases hf : (⟨h.x + g.direction.x, h.y + g.direction.y⟩ : Point) = g.food
  · rw [runningTick_eat g r h [] hs hf]
    dsimp only
    rcases hd with h1 | h1 | h1 | h1 <;>
      rw [h1] <;>
      simp [detectCollision]
  · rw [runningTick_noeat g r h [] hs hf]
    dsimp only
    simp [detectCollision]

/-- Witness for C10. -/
theorem C10_single_segment_safe_witness :
    (tickStep aliveGame (0, 0)).state = .RUNNING :=
  C10_single_segment_safe aliveGame (0, 0) ⟨5, 5⟩ rfl rfl (Or.inr (Or.inl rfl))

end Snake
